import Mathlib

/-!
Shallow embedding of the payment-fulfillment and order-consistency core of the
sunmegabackend repository.

Sources embedded:
- src/controllers/paymentController.js : pesapalCallback, pesapalIPN
- src/unnamed/part_033                 : handlePaymentCaptureCompleted (PayPal webhook)
- src/controllers/orderController.js   : cancelOrder (identical copy in src/unnamed/part_024)
- src/unnamed/part_024                 : createOrder (the variant with defensive cart filtering)

Modelling conventions:
- Money amounts are rationals (JS numbers; every arithmetic fact proved here is
  exact-by-construction in the source, no float rounding is involved).
- The MongoDB session transaction is modelled by runTx: the sub-steps execute in
  order on a tentative state; commitTransaction publishes the folded state, any
  failing sub-step aborts and the published state is the pre-attempt state
  (abortTransaction discards the session writes; the handlers rethrow and never
  save afterwards).
- Each handler is modelled from the point where the order has been resolved
  (ORDER_NOT_FOUND / missing-tracking-id branches are elided: every claim is
  conditioned on the event resolving to an order). The DB record carries that
  one order, the product stock table and the customer cart.
- logger calls carry no state; the amount-mismatch log (which records both the
  claimed and the expected amount) is reflected in the handler result so that
  logging behaviour is provable.
- The order-confirmation e-mail step is outside the transaction and touches no
  local state; it is elided.
-/

namespace SunMega

inductive PaymentStatus
| pending
| processing
| paid
| failedP
| refunded
deriving DecidableEq, Repr

inductive OrderStatus
| pending
| confirmed
| processing
| shipped
| delivered
| cancelled
deriving DecidableEq, Repr

/-- One immutable order line item (models the items sub-document of Order). -/
structure OrderItem where
  productId : Nat
  name : String
  quantity : Nat
  price : Rat
  total : Rat
deriving DecidableEq, Repr

/-- The Order aggregate (fields the core reads or writes; orderNumber,
shippingAddress, notes, timestamps are carried verbatim by the code and
elided here). -/
structure Order where
  userId : Nat
  items : List OrderItem
  subtotal : Rat
  shipping : Rat
  tax : Rat
  total : Rat
  paymentStatus : PaymentStatus
  orderStatus : OrderStatus
  paymentId : Option String
deriving DecidableEq, Repr

/-- A raw cart line as persisted (productId, quantity, add-time price cache). -/
structure CartLine where
  productId : Nat
  quantity : Nat
  price : Rat
deriving DecidableEq, Repr

/-- The slice of the database a fulfillment attempt touches: the resolved
order, the per-product stock table, and the customer cart items. -/
structure DB where
  order : Order
  stocks : List (Nat × Int)
  cart : List CartLine
deriving DecidableEq, Repr

/-- Product.findByIdAndUpdate with a $inc stock delta: an atomic relative
adjustment of the matching product row; a miss is a no-op. -/
def incStock (pid : Nat) (d : Int) (stocks : List (Nat × Int)) : List (Nat × Int) :=
  stocks.map (fun e => if e.1 = pid then (e.1, e.2 + d) else e)

/-- The stock effect of the fulfillment loop: for every line item, stock is
decremented by that item quantity. -/
def decStockAll (items : List OrderItem) (stocks : List (Nat × Int)) : List (Nat × Int) :=
  items.foldl (fun s it => incStock it.productId (-(it.quantity : Int)) s) stocks

/-- The stock effect of the cancelOrder restore loop. -/
def restoreStockAll (items : List OrderItem) (stocks : List (Nat × Int)) : List (Nat × Int) :=
  items.foldl (fun s it => incStock it.productId ((it.quantity : Int)) s) stocks

/-- Session transaction runner. steps run in order on the session snapshot;
failAt = some n means the n-th sub-step throws, in which case the transaction
is aborted (abortTransaction) and nothing is published: the result is none.
failAt = none (or an index past the last step) commits the folded state. -/
def runTx : List (DB → DB) → Option Nat → DB → Option DB
  | [], _, db => some db
  | _ :: _, some 0, _ => none
  | f :: fs, failAt, db => runTx fs (failAt.map (fun n => n - 1)) (f db)

/-- The sub-steps of the fulfillment transaction, in source order:
1. save the updated order, 2. one $inc per line item, 3. clear the cart. -/
def fulfillSteps (mk : Order → Order) (items : List OrderItem) : List (DB → DB) :=
  (fun db => { db with order := mk db.order }) ::
  (items.map (fun it => fun db =>
      { db with stocks := incStock it.productId (-(it.quantity : Int)) db.stocks }) ++
    [fun db => { db with cart := [] }])

/-- One fulfillment transaction attempt: Bool reports whether the transaction
committed; on abort the published database is the pre-attempt one. -/
def fulfillAttempt (mk : Order → Order) (failAt : Option Nat) (db : DB) : DB × Bool :=
  match runTx (fulfillSteps mk db.order.items) failAt db with
  | some db2 => (db2, true)
  | none => (db, false)

/-- The order update of the Pesapal paths: paid; pending advances to
confirmed; paymentId := OrderTrackingId. -/
def pesapalPaidOrder (tid : String) (o : Order) : Order :=
  { o with
    paymentStatus := .paid
    orderStatus := if o.orderStatus = .pending then .confirmed else o.orderStatus
    paymentId := some tid }

/-- The order update of the PayPal webhook path: paid; orderStatus set to
confirmed unconditionally; paymentId := capture.id or the PayPal order id. -/
def paypalPaidOrder (pid : String) (o : Order) : Order :=
  { o with
    paymentStatus := .paid
    orderStatus := .confirmed
    paymentId := some pid }

/-- What getPaymentStatus / verifyIPN report back from Pesapal: a status
string (possibly absent) and a reported amount (possibly absent). -/
structure PesapalStatus where
  paymentStatus : Option String
  amount : Option Rat
deriving DecidableEq, Repr

/-- JS String.toUpperCase, modelled as character-wise uppercasing. -/
def jsToUpper (s : String) : String := String.mk (s.data.map Char.toUpper)

/-- paymentStatus.paymentStatus?.toUpperCase() || two-single-quotes. -/
def statusUpper (gw : PesapalStatus) : String :=
  (gw.paymentStatus.map jsToUpper).getD ""

/-- The hard-coded amount-verification tolerance (0.01). -/
def tolerance : Rat := 1 / 100

/-- parseFloat(x.amount || 0): an absent amount parses as 0. -/
def parsedAmount (a : Option Rat) : Rat := a.getD 0

inductive Redirect
| success
| failedR
| error
deriving DecidableEq, Repr

/-- Callback outcome: the HTTP redirect issued, plus the amount-mismatch audit
log entry (claimed amount, order total) when one was written. -/
structure CallbackOut where
  redirect : Redirect
  mismatchLog : Option (Rat × Rat)
deriving DecidableEq, Repr

/-- pesapalCallback (src/controllers/paymentController.js lines 97-227), from
the point where the order was resolved from OrderMerchantReference; gw is the
result of getPaymentStatus(OrderTrackingId). -/
def pesapalCallback (db : DB) (tid : String) (gw : PesapalStatus) (failAt : Option Nat) :
    DB × CallbackOut :=
  if db.order.paymentStatus = .paid then
    (db, ⟨.success, none⟩)
  else if statusUpper gw = "COMPLETED" then
    let paidAmount := parsedAmount gw.amount
    let orderTotal := db.order.total
    if tolerance < |paidAmount - orderTotal| then
      ({ db with order := { db.order with paymentStatus := .failedP, paymentId := some tid } },
        ⟨.error, some (paidAmount, orderTotal)⟩)
    else
      match fulfillAttempt (pesapalPaidOrder tid) failAt db with
      | (db2, true) =>
          (db2, ⟨if gw.paymentStatus = some "COMPLETED" then .success else .failedR, none⟩)
      | (db2, false) => (db2, ⟨.error, none⟩)
  else if statusUpper gw = "FAILED" then
    ({ db with order := { db.order with paymentStatus := .failedP, paymentId := some tid } },
      ⟨if gw.paymentStatus = some "COMPLETED" then .success else .failedR, none⟩)
  else
    ({ db with order := { db.order with paymentStatus := .processing, paymentId := some tid } },
      ⟨if gw.paymentStatus = some "COMPLETED" then .success else .failedR, none⟩)

inductive IpnResp
| success
| amountMismatch
| serverError
deriving DecidableEq, Repr

/-- IPN outcome: the JSON response kind, plus the amount-mismatch audit log
entry when one was written. -/
structure IpnOut where
  resp : IpnResp
  mismatchLog : Option (Rat × Rat)
deriving DecidableEq, Repr

/-- pesapalIPN (src/controllers/paymentController.js lines 234-380), from the
point where the order was resolved; v is the result of verifyIPN. -/
def pesapalIPN (db : DB) (tid : String) (v : PesapalStatus) (failAt : Option Nat) :
    DB × IpnOut :=
  if db.order.paymentStatus = .paid then
    (db, ⟨.success, none⟩)
  else if statusUpper v = "COMPLETED" then
    let paidAmount := parsedAmount v.amount
    let orderTotal := db.order.total
    if tolerance < |paidAmount - orderTotal| then
      ({ db with order := { db.order with paymentStatus := .failedP } },
        ⟨.amountMismatch, some (paidAmount, orderTotal)⟩)
    else
      match fulfillAttempt (pesapalPaidOrder tid) failAt db with
      | (db2, true) => (db2, ⟨.success, none⟩)
      | (db2, false) => (db2, ⟨.serverError, none⟩)
  else if statusUpper v = "FAILED" then
    ({ db with order := { db.order with paymentStatus := .failedP, paymentId := some tid } },
      ⟨.success, none⟩)
  else
    ({ db with order := { db.order with paymentId := some tid } },
      ⟨.success, none⟩)

/-- Webhook outcome: the handler returns nothing to PayPal (the 200 ack was
already sent); only the mismatch audit log entry is observable. -/
structure WebhookOut where
  mismatchLog : Option (Rat × Rat)
deriving DecidableEq, Repr

/-- handlePaymentCaptureCompleted (src/unnamed/part_033 lines 81-199), from
the point where the order was resolved from paypalOrderId. amount is
capture.amount?.value, captureId is capture.id. -/
def handlePaymentCaptureCompleted (db : DB) (captureId : Option String)
    (paypalOrderId : String) (amount : Option Rat) (failAt : Option Nat) :
    DB × WebhookOut :=
  if db.order.paymentStatus = .paid then
    (db, ⟨none⟩)
  else
    let capturedAmount := parsedAmount amount
    let orderTotal := db.order.total
    if tolerance < |capturedAmount - orderTotal| then
      (db, ⟨some (capturedAmount, orderTotal)⟩)
    else
      match fulfillAttempt (paypalPaidOrder (captureId.getD paypalOrderId)) failAt db with
      | (db2, _) => (db2, ⟨none⟩)

inductive CancelOut
| success
| notAllowed
deriving DecidableEq, Repr

/-- cancelOrder (src/controllers/orderController.js lines 280-330; identical in
src/unnamed/part_024), from the point where the order was resolved: allowed
only from pending/confirmed, then every line-item quantity is $inc-ed back
into stock and the order is set to cancelled. The restore loop runs
unconditionally, with no check that stock was ever decremented. -/
def cancelOrder (db : DB) : DB × CancelOut :=
  if db.order.orderStatus = .pending ∨ db.order.orderStatus = .confirmed then
    ({ db with
        stocks := restoreStockAll db.order.items db.stocks,
        order := { db.order with orderStatus := .cancelled } },
      .success)
  else
    (db, .notAllowed)

/-- A product document as seen after .populate on a cart item. -/
structure Product where
  id : Nat
  name : String
  price : Rat
  stock : Int
  active : Bool
deriving DecidableEq, Repr

/-- A cart item after .populate: productId is the populated product document,
none when the referenced product was deleted; price is the add-time cache. -/
structure PopCartItem where
  productId : Option Product
  quantity : Nat
  price : Rat
deriving DecidableEq, Repr

/-- Required shipping-address fields (optional state/zip/country elided). -/
structure ShippingAddress where
  name : String
  phone : String
  email : String
  street : String
  city : String
deriving DecidableEq, Repr

/-- The destructured createOrder request body. deliveryMethod defaults to
home at the destructuring site; a missing paymentMethod is the empty string
(both are falsy in the source checks). -/
structure CreateOrderReq where
  shippingAddress : Option ShippingAddress
  deliveryMethod : String
  paymentMethod : String
deriving DecidableEq, Repr

/-- The source test (missing field, or a string that trims to empty) holds
exactly of all-whitespace strings; the empty string models a missing field. -/
def isBlank (s : String) : Bool := s.data.all Char.isWhitespace

def validPaymentMethods : List String := ["pesapal", "mpesa", "card", "cash"]

def validDeliveryMethods : List String := ["home", "pickup"]

/-- The cart-integrity filter of part_024: an item is kept iff its populated
product exists and is not inactive. -/
def isValidCartItem (it : PopCartItem) : Bool :=
  match it.productId with
  | none => false
  | some p => p.active

inductive CreateOut
| err (code : String)
| ok (order : Order)
deriving DecidableEq, Repr

/-- The order-item building loop of createOrder: re-checks availability and
stock, prices each line from the populated product current price (never the
cart-cached or a client-supplied price), and accumulates the subtotal. -/
def buildOrderItems : List PopCartItem → Except String (List OrderItem × Rat)
  | [] => .ok ([], 0)
  | ci :: rest =>
    match ci.productId with
    | none => .error "PRODUCT_UNAVAILABLE"
    | some p =>
      if p.active = false then .error "PRODUCT_UNAVAILABLE"
      else if p.stock < (ci.quantity : Int) then .error "INSUFFICIENT_STOCK"
      else
        match buildOrderItems rest with
        | .error e => .error e
        | .ok (its, sub) =>
          .ok ({ productId := p.id, name := p.name, quantity := ci.quantity,
                 price := p.price, total := p.price * (ci.quantity : Rat) } :: its,
               p.price * (ci.quantity : Rat) + sub)

/-- createOrder (src/unnamed/part_024 lines 177-402), the converged variant
with defensive cart filtering. cart is the persisted cart items (none models
no cart document); the first component of the result is the persisted cart
after the call (sanitization side effect), the second the HTTP outcome. -/
def createOrder (req : CreateOrderReq) (cart : Option (List PopCartItem)) (userId : Nat) :
    Option (List PopCartItem) × CreateOut :=
  match req.shippingAddress with
  | none => (cart, .err "SHIPPING_ADDRESS_REQUIRED")
  | some sa =>
    if isBlank sa.name || isBlank sa.phone || isBlank sa.email ||
        isBlank sa.street || isBlank sa.city then
      (cart, .err "SHIPPING_ADDRESS_INCOMPLETE")
    else if req.paymentMethod = "" then
      (cart, .err "PAYMENT_METHOD_REQUIRED")
    else if req.paymentMethod ∉ validPaymentMethods then
      (cart, .err "INVALID_PAYMENT_METHOD")
    else if req.deliveryMethod ∉ validDeliveryMethods then
      (cart, .err "INVALID_DELIVERY_METHOD")
    else
      match cart with
      | none => (none, .err "EMPTY_CART")
      | some items =>
        if items = [] then
          (some items, .err "EMPTY_CART")
        else
          let validItems := items.filter isValidCartItem
          if validItems = [] then
            (some [], .err "CART_CORRUPTED")
          else
            let cart2 := if validItems.length < items.length then validItems else items
            match buildOrderItems validItems with
            | .error code => (some cart2, .err code)
            | .ok (orderItems, subtotal) =>
              let shipping : Rat := if req.deliveryMethod = "pickup" then 0 else 50
              let tax : Rat := 0
              let total := subtotal + shipping + tax
              (some cart2,
                .ok { userId := userId, items := orderItems, subtotal := subtotal,
                      shipping := shipping, tax := tax, total := total,
                      paymentStatus := .pending, orderStatus := .pending,
                      paymentId := none })

/-! Transaction lemmas: a transaction either commits the fold of all its
sub-steps or publishes nothing. -/

theorem runTx_none (steps : List (DB → DB)) (db : DB) :
    runTx steps none db = some (steps.foldl (fun s f => f s) db) := by
  induction steps generalizing db with
  | nil => rfl
  | cons f fs ih => simpa [runTx] using ih (f db)

theorem runTx_abort (steps : List (DB → DB)) (n : Nat) (db : DB)
    (h : n < steps.length) : runTx steps (some n) db = none := by
  induction steps generalizing n db with
  | nil => simp at h
  | cons f fs ih =>
    cases n with
    | zero => rfl
    | succ m =>
      have hm : m < fs.length := by simpa using Nat.lt_of_succ_lt_succ h
      simpa [runTx] using ih m (f db) hm

theorem foldl_stockSteps (items : List OrderItem) (db : DB) :
    (items.map (fun it => fun db =>
        { db with stocks := incStock it.productId (-(it.quantity : Int)) db.stocks })).foldl
      (fun s f => f s) db
      = { db with stocks := decStockAll items db.stocks } := by
  induction items generalizing db with
  | nil => simp [decStockAll]
  | cons it rest ih =>
    simp only [List.map_cons, List.foldl_cons]
    rw [ih]
    simp [decStockAll]

theorem fulfillAttempt_commit (mk : Order → Order) (db : DB) :
    fulfillAttempt mk none db =
      ({ order := mk db.order,
         stocks := decStockAll db.order.items db.stocks,
         cart := [] }, true) := by
  unfold fulfillAttempt
  rw [runTx_none]
  simp only [fulfillSteps, List.foldl_cons, List.foldl_append]
  rw [foldl_stockSteps]
  rfl

theorem fulfillAttempt_abort (mk : Order → Order) (db : DB) (n : Nat)
    (h : n < db.order.items.length + 2) :
    fulfillAttempt mk (some n) db = (db, false) := by
  have hlen : n < (fulfillSteps mk db.order.items).length := by
    simp only [fulfillSteps, List.length_cons, List.length_append, List.length_map,
      List.length_singleton]
    omega
  unfold fulfillAttempt
  rw [runTx_abort _ _ _ hlen]

/-! Concrete fixtures used to witness the theorems below. -/

def fixtureItems : List OrderItem := [⟨1, "P1", 2, 100, 200⟩]

def fixtureOrder (ps : PaymentStatus) (os : OrderStatus) : Order :=
  { userId := 7, items := fixtureItems, subtotal := 200, shipping := 50, tax := 0,
    total := 250, paymentStatus := ps, orderStatus := os, paymentId := none }

def fixtureDB (ps : PaymentStatus) (os : OrderStatus) : DB :=
  { order := fixtureOrder ps os, stocks := [(1, 5)], cart := [⟨1, 2, 100⟩] }

/-! Helper facts about the fixtures (rational arithmetic is done once here). -/

theorem jsToUpper_completed : jsToUpper "COMPLETED" = "COMPLETED" := by decide

theorem statusUpper_completed (a : Option Rat) :
    statusUpper ⟨some "COMPLETED", a⟩ = "COMPLETED" := by
  simp [statusUpper, jsToUpper_completed]

theorem amount_match (x : Rat) : ¬ tolerance < |parsedAmount (some x) - x| := by
  have h : parsedAmount (some x) - x = 0 := by simp [parsedAmount]
  rw [h, abs_zero, tolerance]
  norm_num

theorem mismatch_100_250 : tolerance < |parsedAmount (some 100) - (250 : Rat)| := by
  have h : parsedAmount (some 100) - (250 : Rat) = -150 := by
    simp [parsedAmount]
    norm_num
  rw [h, abs_neg, abs_of_nonneg (by norm_num : (0 : Rat) ≤ 150), tolerance]
  norm_num

/-! Branch lemmas for the three ingress handlers. -/

theorem pesapalCallback_already_paid (db : DB) (tid : String) (gw : PesapalStatus)
    (failAt : Option Nat) (h : db.order.paymentStatus = .paid) :
    pesapalCallback db tid gw failAt = (db, ⟨.success, none⟩) := by
  unfold pesapalCallback
  rw [if_pos h]

theorem pesapalIPN_already_paid (db : DB) (tid : String) (v : PesapalStatus)
    (failAt : Option Nat) (h : db.order.paymentStatus = .paid) :
    pesapalIPN db tid v failAt = (db, ⟨.success, none⟩) := by
  unfold pesapalIPN
  rw [if_pos h]

theorem webhook_already_paid (db : DB) (cid : Option String) (pid : String)
    (amt : Option Rat) (failAt : Option Nat) (h : db.order.paymentStatus = .paid) :
    handlePaymentCaptureCompleted db cid pid amt failAt = (db, ⟨none⟩) := by
  unfold handlePaymentCaptureCompleted
  rw [if_pos h]

theorem pesapalCallback_commit (db : DB) (tid : String) (gw : PesapalStatus)
    (hnp : db.order.paymentStatus ≠ .paid) (hcomp : statusUpper gw = "COMPLETED")
    (hamt : ¬ tolerance < |parsedAmount gw.amount - db.order.total|) :
    pesapalCallback db tid gw none =
      ({ order := pesapalPaidOrder tid db.order,
         stocks := decStockAll db.order.items db.stocks, cart := [] },
        ⟨if gw.paymentStatus = some "COMPLETED" then .success else .failedR, none⟩) := by
  simp [pesapalCallback, hnp, hcomp, hamt, fulfillAttempt_commit]

theorem pesapalIPN_commit (db : DB) (tid : String) (v : PesapalStatus)
    (hnp : db.order.paymentStatus ≠ .paid) (hcomp : statusUpper v = "COMPLETED")
    (hamt : ¬ tolerance < |parsedAmount v.amount - db.order.total|) :
    pesapalIPN db tid v none =
      ({ order := pesapalPaidOrder tid db.order,
         stocks := decStockAll db.order.items db.stocks, cart := [] },
        ⟨.success, none⟩) := by
  simp [pesapalIPN, hnp, hcomp, hamt, fulfillAttempt_commit]

theorem webhook_commit (db : DB) (cid : Option String) (pid : String) (amt : Option Rat)
    (hnp : db.order.paymentStatus ≠ .paid)
    (hamt : ¬ tolerance < |parsedAmount amt - db.order.total|) :
    handlePaymentCaptureCompleted db cid pid amt none =
      ({ order := paypalPaidOrder (cid.getD pid) db.order,
         stocks := decStockAll db.order.items db.stocks, cart := [] },
        ⟨none⟩) := by
  simp [handlePaymentCaptureCompleted, hnp, hamt, fulfillAttempt_commit]

theorem pesapalCallback_abort (db : DB) (tid : String) (gw : PesapalStatus) (n : Nat)
    (hnp : db.order.paymentStatus ≠ .paid) (hcomp : statusUpper gw = "COMPLETED")
    (hamt : ¬ tolerance < |parsedAmount gw.amount - db.order.total|)
    (hn : n < db.order.items.length + 2) :
    pesapalCallback db tid gw (some n) = (db, ⟨.error, none⟩) := by
  simp [pesapalCallback, hnp, hcomp, hamt, fulfillAttempt_abort _ _ _ hn]

theorem pesapalIPN_abort (db : DB) (tid : String) (v : PesapalStatus) (n : Nat)
    (hnp : db.order.paymentStatus ≠ .paid) (hcomp : statusUpper v = "COMPLETED")
    (hamt : ¬ tolerance < |parsedAmount v.amount - db.order.total|)
    (hn : n < db.order.items.length + 2) :
    pesapalIPN db tid v (some n) = (db, ⟨.serverError, none⟩) := by
  simp [pesapalIPN, hnp, hcomp, hamt, fulfillAttempt_abort _ _ _ hn]

theorem webhook_abort (db : DB) (cid : Option String) (pid : String) (amt : Option Rat)
    (n : Nat) (hnp : db.order.paymentStatus ≠ .paid)
    (hamt : ¬ tolerance < |parsedAmount amt - db.order.total|)
    (hn : n < db.order.items.length + 2) :
    handlePaymentCaptureCompleted db cid pid amt (some n) = (db, ⟨none⟩) := by
  simp [handlePaymentCaptureCompleted, hnp, hamt, fulfillAttempt_abort _ _ _ hn]

theorem pesapalCallback_mismatch (db : DB) (tid : String) (gw : PesapalStatus)
    (failAt : Option Nat) (hnp : db.order.paymentStatus ≠ .paid)
    (hcomp : statusUpper gw = "COMPLETED")
    (hmis : tolerance < |parsedAmount gw.amount - db.order.total|) :
    pesapalCallback db tid gw failAt =
      ({ db with order := { db.order with paymentStatus := .failedP, paymentId := some tid } },
        ⟨.error, some (parsedAmount gw.amount, db.order.total)⟩) := by
  simp [pesapalCallback, hnp, hcomp, hmis]

theorem pesapalIPN_mismatch (db : DB) (tid : String) (v : PesapalStatus)
    (failAt : Option Nat) (hnp : db.order.paymentStatus ≠ .paid)
    (hcomp : statusUpper v = "COMPLETED")
    (hmis : tolerance < |parsedAmount v.amount - db.order.total|) :
    pesapalIPN db tid v failAt =
      ({ db with order := { db.order with paymentStatus := .failedP } },
        ⟨.amountMismatch, some (parsedAmount v.amount, db.order.total)⟩) := by
  simp [pesapalIPN, hnp, hcomp, hmis]

theorem webhook_mismatch (db : DB) (cid : Option String) (pid : String) (amt : Option Rat)
    (failAt : Option Nat) (hnp : db.order.paymentStatus ≠ .paid)
    (hmis : tolerance < |parsedAmount amt - db.order.total|) :
    handlePaymentCaptureCompleted db cid pid amt failAt =
      (db, ⟨some (parsedAmount amt, db.order.total)⟩) := by
  simp [handlePaymentCaptureCompleted, hnp, hmis]

/-- C1: a fulfillment attempt for an already-paid order returns success on all
three ingress paths with no side effect, and a second sequential attempt with
the same completed matching outcome is a no-op: in total the stock is
decremented exactly once per line item and the cart cleared exactly once. -/
theorem C1_idempotency_gate :
    (∀ (db : DB) (tid : String) (gw : PesapalStatus) (failAt : Option Nat),
        db.order.paymentStatus = .paid →
        pesapalCallback db tid gw failAt = (db, ⟨.success, none⟩)) ∧
    (∀ (db : DB) (tid : String) (v : PesapalStatus) (failAt : Option Nat),
        db.order.paymentStatus = .paid →
        pesapalIPN db tid v failAt = (db, ⟨.success, none⟩)) ∧
    (∀ (db : DB) (cid : Option String) (pid : String) (amt : Option Rat) (failAt : Option Nat),
        db.order.paymentStatus = .paid →
        handlePaymentCaptureCompleted db cid pid amt failAt = (db, ⟨none⟩)) ∧
    (∀ (db : DB) (tid : String) (gw : PesapalStatus),
        db.order.paymentStatus ≠ .paid →
        statusUpper gw = "COMPLETED" →
        ¬ tolerance < |parsedAmount gw.amount - db.order.total| →
        ((pesapalCallback db tid gw none).1.order.paymentStatus = .paid ∧
          (pesapalCallback db tid gw none).1.stocks = decStockAll db.order.items db.stocks ∧
          (pesapalCallback db tid gw none).1.cart = [] ∧
          pesapalCallback (pesapalCallback db tid gw none).1 tid gw none =
            ((pesapalCallback db tid gw none).1, ⟨.success, none⟩)) ∧
        ((pesapalIPN db tid gw none).1.order.paymentStatus = .paid ∧
          (pesapalIPN db tid gw none).1.stocks = decStockAll db.order.items db.stocks ∧
          (pesapalIPN db tid gw none).1.cart = [] ∧
          pesapalIPN (pesapalIPN db tid gw none).1 tid gw none =
            ((pesapalIPN db tid gw none).1, ⟨.success, none⟩))) ∧
    (∀ (db : DB) (cid : Option String) (pid : String) (amt : Option Rat),
        db.order.paymentStatus ≠ .paid →
        ¬ tolerance < |parsedAmount amt - db.order.total| →
        (handlePaymentCaptureCompleted db cid pid amt none).1.order.paymentStatus = .paid ∧
        (handlePaymentCaptureCompleted db cid pid amt none).1.stocks =
          decStockAll db.order.items db.stocks ∧
        (handlePaymentCaptureCompleted db cid pid amt none).1.cart = [] ∧
        handlePaymentCaptureCompleted (handlePaymentCaptureCompleted db cid pid amt none).1
            cid pid amt none =
          ((handlePaymentCaptureCompleted db cid pid amt none).1, ⟨none⟩)) := by
  refine ⟨pesapalCallback_already_paid, pesapalIPN_already_paid, webhook_already_paid,
    ?_, ?_⟩
  · intro db tid gw hnp hcomp hamt
    have hcb : (pesapalCallback db tid gw none).1 =
        { order := pesapalPaidOrder tid db.order,
          stocks := decStockAll db.order.items db.stocks, cart := [] } := by
      rw [pesapalCallback_commit db tid gw hnp hcomp hamt]
    constructor
    · exact ⟨by rw [hcb]; rfl, by rw [hcb], by rw [hcb],
        pesapalCallback_already_paid _ _ _ _ (by rw [hcb]; rfl)⟩
    · have hipn : (pesapalIPN db tid gw none).1 =
          { order := pesapalPaidOrder tid db.order,
            stocks := decStockAll db.order.items db.stocks, cart := [] } := by
        rw [pesapalIPN_commit db tid gw hnp hcomp hamt]
      exact ⟨by rw [hipn]; rfl, by rw [hipn], by rw [hipn],
        pesapalIPN_already_paid _ _ _ _ (by rw [hipn]; rfl)⟩
  · intro db cid pid amt hnp hamt
    have hwh : (handlePaymentCaptureCompleted db cid pid amt none).1 =
        { order := paypalPaidOrder (cid.getD pid) db.order,
          stocks := decStockAll db.order.items db.stocks, cart := [] } := by
      rw [webhook_commit db cid pid amt hnp hamt]
    exact ⟨by rw [hwh]; rfl, by rw [hwh], by rw [hwh],
      webhook_already_paid _ _ _ _ _ (by rw [hwh]; rfl)⟩

/-- C1 witness: the gate and the exactly-once behaviour at concrete inputs. -/
theorem C1_idempotency_gate_witness :
    pesapalCallback (fixtureDB .paid .confirmed) "T1" ⟨some "COMPLETED", some 250⟩ none =
      (fixtureDB .paid .confirmed, ⟨.success, none⟩) ∧
    pesapalIPN (fixtureDB .paid .confirmed) "T1" ⟨some "COMPLETED", some 250⟩ none =
      (fixtureDB .paid .confirmed, ⟨.success, none⟩) ∧
    handlePaymentCaptureCompleted (fixtureDB .paid .confirmed) (some "C1") "PP" (some 250) none =
      (fixtureDB .paid .confirmed, ⟨none⟩) ∧
    (pesapalCallback (fixtureDB .pending .pending) "T1" ⟨some "COMPLETED", some 250⟩ none).1.stocks
      = decStockAll (fixtureDB .pending .pending).order.items (fixtureDB .pending .pending).stocks ∧
    pesapalCallback
        (pesapalCallback (fixtureDB .pending .pending) "T1" ⟨some "COMPLETED", some 250⟩ none).1
        "T1" ⟨some "COMPLETED", some 250⟩ none =
      ((pesapalCallback (fixtureDB .pending .pending) "T1" ⟨some "COMPLETED", some 250⟩ none).1,
        ⟨.success, none⟩) ∧
    handlePaymentCaptureCompleted
        (handlePaymentCaptureCompleted (fixtureDB .pending .pending) (some "C1") "PP" (some 250) none).1
        (some "C1") "PP" (some 250) none =
      ((handlePaymentCaptureCompleted (fixtureDB .pending .pending) (some "C1") "PP" (some 250) none).1,
        ⟨none⟩) := by
  refine ⟨C1_idempotency_gate.1 _ _ _ _ rfl,
    C1_idempotency_gate.2.1 _ _ _ _ rfl,
    C1_idempotency_gate.2.2.1 _ _ _ _ _ rfl, ?_, ?_, ?_⟩
  · exact (((C1_idempotency_gate.2.2.2.1 (fixtureDB .pending .pending) "T1"
      ⟨some "COMPLETED", some 250⟩ (by decide) (statusUpper_completed (some 250))
      (amount_match 250)).1).2.1)
  · exact (((C1_idempotency_gate.2.2.2.1 (fixtureDB .pending .pending) "T1"
      ⟨some "COMPLETED", some 250⟩ (by decide) (statusUpper_completed (some 250))
      (amount_match 250)).1).2.2.2)
  · exact ((C1_idempotency_gate.2.2.2.2 (fixtureDB .pending .pending) (some "C1") "PP"
      (some 250) (by decide) (amount_match 250)).2.2.2)

/-- C2: on every ingress path, a completed confirmation whose claimed amount
differs from the order total by more than the tolerance never marks a
not-yet-paid order as paid, and applies no stock decrement or cart clear. -/
theorem C2_amount_mismatch_safety :
    ∀ (db : DB) (tid : String) (gw : PesapalStatus) (cid : Option String) (pid : String)
      (failAt : Option Nat),
      db.order.paymentStatus ≠ .paid →
      statusUpper gw = "COMPLETED" →
      tolerance < |parsedAmount gw.amount - db.order.total| →
      ((pesapalCallback db tid gw failAt).1.order.paymentStatus ≠ .paid ∧
        (pesapalCallback db tid gw failAt).1.stocks = db.stocks ∧
        (pesapalCallback db tid gw failAt).1.cart = db.cart) ∧
      ((pesapalIPN db tid gw failAt).1.order.paymentStatus ≠ .paid ∧
        (pesapalIPN db tid gw failAt).1.stocks = db.stocks ∧
        (pesapalIPN db tid gw failAt).1.cart = db.cart) ∧
      (handlePaymentCaptureCompleted db cid pid gw.amount failAt).1 = db := by
  intro db tid gw cid pid failAt hnp hcomp hmis
  refine ⟨⟨?_, ?_, ?_⟩, ⟨?_, ?_, ?_⟩, ?_⟩ <;>
    simp [pesapalCallback, pesapalIPN, handlePaymentCaptureCompleted, hnp, hcomp, hmis]

/-- C2 witness: a completed Pesapal/PayPal confirmation claiming 100 against a
total of 250 is rejected on all three paths with no side effect. -/
theorem C2_amount_mismatch_safety_witness :
    ((pesapalCallback (fixtureDB .pending .pending) "T1" ⟨some "COMPLETED", some 100⟩ none).1.order.paymentStatus
        ≠ .paid ∧
      (pesapalCallback (fixtureDB .pending .pending) "T1" ⟨some "COMPLETED", some 100⟩ none).1.stocks
        = (fixtureDB .pending .pending).stocks ∧
      (pesapalCallback (fixtureDB .pending .pending) "T1" ⟨some "COMPLETED", some 100⟩ none).1.cart
        = (fixtureDB .pending .pending).cart) ∧
    ((pesapalIPN (fixtureDB .pending .pending) "T1" ⟨some "COMPLETED", some 100⟩ none).1.order.paymentStatus
        ≠ .paid ∧
      (pesapalIPN (fixtureDB .pending .pending) "T1" ⟨some "COMPLETED", some 100⟩ none).1.stocks
        = (fixtureDB .pending .pending).stocks ∧
      (pesapalIPN (fixtureDB .pending .pending) "T1" ⟨some "COMPLETED", some 100⟩ none).1.cart
        = (fixtureDB .pending .pending).cart) ∧
    (handlePaymentCaptureCompleted (fixtureDB .pending .pending) (some "C1") "PP" (some 100) none).1
      = fixtureDB .pending .pending :=
  C2_amount_mismatch_safety (fixtureDB .pending .pending) "T1" ⟨some "COMPLETED", some 100⟩
    (some "C1") "PP" none (by decide) (statusUpper_completed (some 100)) mismatch_100_250

theorem tolerance_pos : (0 : Rat) < tolerance := by
  rw [tolerance]
  norm_num

theorem tolerance_lt_250 : tolerance < (250 : Rat) := by
  rw [tolerance]
  norm_num

/-- C3 counterexample: a completed PayPal webhook capture of 100 against an
order total of 250 (a mismatch beyond the tolerance) leaves the order
untouched — paymentStatus is NOT marked failed on the webhook path. -/
theorem C3_counterexample :
    (handlePaymentCaptureCompleted (fixtureDB .pending .pending) none "PP1" (some 100) none).1
      = fixtureDB .pending .pending ∧
    (handlePaymentCaptureCompleted (fixtureDB .pending .pending) none "PP1" (some 100) none).1.order.paymentStatus
      ≠ .failedP ∧
    tolerance < |parsedAmount (some 100) - (fixtureDB .pending .pending).order.total| := by
  have h := webhook_mismatch (fixtureDB .pending .pending) none "PP1" (some 100) none
    (by decide) mismatch_100_250
  rw [h]
  exact ⟨rfl, by decide, mismatch_100_250⟩

/-- C3 (amended): on the Pesapal callback and IPN paths an out-of-tolerance
completed confirmation marks paymentStatus failed, logs both amounts, and
returns an error (error redirect resp. 400 AMOUNT_MISMATCH); on the PayPal
webhook path both amounts are logged but the event is discarded with no state
change and no error returned (the webhook was already acknowledged 200). -/
theorem C3_mismatch_handling :
    ∀ (db : DB) (tid : String) (gw : PesapalStatus) (cid : Option String) (pid : String)
      (failAt : Option Nat),
      db.order.paymentStatus ≠ .paid →
      statusUpper gw = "COMPLETED" →
      tolerance < |parsedAmount gw.amount - db.order.total| →
      pesapalCallback db tid gw failAt =
        ({ db with order := { db.order with paymentStatus := .failedP, paymentId := some tid } },
          ⟨.error, some (parsedAmount gw.amount, db.order.total)⟩) ∧
      pesapalIPN db tid gw failAt =
        ({ db with order := { db.order with paymentStatus := .failedP } },
          ⟨.amountMismatch, some (parsedAmount gw.amount, db.order.total)⟩) ∧
      handlePaymentCaptureCompleted db cid pid gw.amount failAt =
        (db, ⟨some (parsedAmount gw.amount, db.order.total)⟩) := by
  intro db tid gw cid pid failAt hnp hcomp hmis
  exact ⟨pesapalCallback_mismatch db tid gw failAt hnp hcomp hmis,
    pesapalIPN_mismatch db tid gw failAt hnp hcomp hmis,
    webhook_mismatch db cid pid gw.amount failAt hnp hmis⟩

/-- C3 witness: the amended behaviour at a concrete mismatched confirmation. -/
theorem C3_mismatch_handling_witness :
    pesapalCallback (fixtureDB .pending .pending) "T1" ⟨some "COMPLETED", some 100⟩ none =
      ({ fixtureDB .pending .pending with
          order := { (fixtureDB .pending .pending).order with
            paymentStatus := .failedP, paymentId := some "T1" } },
        ⟨.error, some (parsedAmount (some 100), (fixtureDB .pending .pending).order.total)⟩) ∧
    pesapalIPN (fixtureDB .pending .pending) "T1" ⟨some "COMPLETED", some 100⟩ none =
      ({ fixtureDB .pending .pending with
          order := { (fixtureDB .pending .pending).order with paymentStatus := .failedP } },
        ⟨.amountMismatch, some (parsedAmount (some 100), (fixtureDB .pending .pending).order.total)⟩) ∧
    handlePaymentCaptureCompleted (fixtureDB .pending .pending) (some "C1") "PP" (some 100) none =
      (fixtureDB .pending .pending,
        ⟨some (parsedAmount (some 100), (fixtureDB .pending .pending).order.total)⟩) :=
  C3_mismatch_handling (fixtureDB .pending .pending) "T1" ⟨some "COMPLETED", some 100⟩
    (some "C1") "PP" none (by decide) (statusUpper_completed (some 100)) mismatch_100_250

/-- C4: the fulfillment transition is all-or-nothing on each ingress path:
with no sub-step failure it sets paymentStatus paid, advances a pending
orderStatus to confirmed, decrements each product stock by the line quantity
and clears the cart; if any sub-step of the transaction fails, the database is
left exactly as it was before the attempt. -/
theorem C4_atomic_transition :
    (∀ (db : DB) (tid : String) (gw : PesapalStatus),
      db.order.paymentStatus ≠ .paid →
      statusUpper gw = "COMPLETED" →
      ¬ tolerance < |parsedAmount gw.amount - db.order.total| →
      ((pesapalCallback db tid gw none).1.order.paymentStatus = .paid ∧
        (pesapalCallback db tid gw none).1.order.orderStatus =
          (if db.order.orderStatus = .pending then .confirmed else db.order.orderStatus) ∧
        (pesapalCallback db tid gw none).1.stocks = decStockAll db.order.items db.stocks ∧
        (pesapalCallback db tid gw none).1.cart = []) ∧
      (∀ n, n < db.order.items.length + 2 →
        (pesapalCallback db tid gw (some n)).1 = db)) ∧
    (∀ (db : DB) (tid : String) (v : PesapalStatus),
      db.order.paymentStatus ≠ .paid →
      statusUpper v = "COMPLETED" →
      ¬ tolerance < |parsedAmount v.amount - db.order.total| →
      ((pesapalIPN db tid v none).1.order.paymentStatus = .paid ∧
        (pesapalIPN db tid v none).1.order.orderStatus =
          (if db.order.orderStatus = .pending then .confirmed else db.order.orderStatus) ∧
        (pesapalIPN db tid v none).1.stocks = decStockAll db.order.items db.stocks ∧
        (pesapalIPN db tid v none).1.cart = []) ∧
      (∀ n, n < db.order.items.length + 2 →
        (pesapalIPN db tid v (some n)).1 = db)) ∧
    (∀ (db : DB) (cid : Option String) (pid : String) (amt : Option Rat),
      db.order.paymentStatus ≠ .paid →
      ¬ tolerance < |parsedAmount amt - db.order.total| →
      ((handlePaymentCaptureCompleted db cid pid amt none).1.order.paymentStatus = .paid ∧
        (handlePaymentCaptureCompleted db cid pid amt none).1.order.orderStatus = .confirmed ∧
        (handlePaymentCaptureCompleted db cid pid amt none).1.stocks =
          decStockAll db.order.items db.stocks ∧
        (handlePaymentCaptureCompleted db cid pid amt none).1.cart = []) ∧
      (∀ n, n < db.order.items.length + 2 →
        (handlePaymentCaptureCompleted db cid pid amt (some n)).1 = db)) := by
  refine ⟨?_, ?_, ?_⟩
  · intro db tid gw hnp hcomp hamt
    have hc := pesapalCallback_commit db tid gw hnp hcomp hamt
    exact ⟨⟨by rw [hc]; rfl, by rw [hc]; rfl, by rw [hc], by rw [hc]⟩,
      fun n hn => by rw [pesapalCallback_abort db tid gw n hnp hcomp hamt hn]⟩
  · intro db tid v hnp hcomp hamt
    have hc := pesapalIPN_commit db tid v hnp hcomp hamt
    exact ⟨⟨by rw [hc]; rfl, by rw [hc]; rfl, by rw [hc], by rw [hc]⟩,
      fun n hn => by rw [pesapalIPN_abort db tid v n hnp hcomp hamt hn]⟩
  · intro db cid pid amt hnp hamt
    have hc := webhook_commit db cid pid amt hnp hamt
    exact ⟨⟨by rw [hc]; rfl, by rw [hc]; rfl, by rw [hc], by rw [hc]⟩,
      fun n hn => by rw [webhook_abort db cid pid amt n hnp hamt hn]⟩

/-- C4 witness: commit and rollback at a concrete order on all three paths. -/
theorem C4_atomic_transition_witness :
    ((pesapalCallback (fixtureDB .pending .pending) "T1" ⟨some "COMPLETED", some 250⟩ none).1.stocks
        = decStockAll (fixtureDB .pending .pending).order.items (fixtureDB .pending .pending).stocks ∧
      (pesapalCallback (fixtureDB .pending .pending) "T1" ⟨some "COMPLETED", some 250⟩ (some 0)).1
        = fixtureDB .pending .pending) ∧
    ((pesapalIPN (fixtureDB .pending .pending) "T1" ⟨some "COMPLETED", some 250⟩ none).1.cart = [] ∧
      (pesapalIPN (fixtureDB .pending .pending) "T1" ⟨some "COMPLETED", some 250⟩ (some 1)).1
        = fixtureDB .pending .pending) ∧
    ((handlePaymentCaptureCompleted (fixtureDB .pending .pending) (some "C1") "PP" (some 250) none).1.order.orderStatus
        = .confirmed ∧
      (handlePaymentCaptureCompleted (fixtureDB .pending .pending) (some "C1") "PP" (some 250) (some 2)).1
        = fixtureDB .pending .pending) := by
  refine ⟨⟨?_, ?_⟩, ⟨?_, ?_⟩, ⟨?_, ?_⟩⟩
  · exact (C4_atomic_transition.1 (fixtureDB .pending .pending) "T1" ⟨some "COMPLETED", some 250⟩
      (by decide) (statusUpper_completed (some 250)) (amount_match 250)).1.2.2.1
  · exact (C4_atomic_transition.1 (fixtureDB .pending .pending) "T1" ⟨some "COMPLETED", some 250⟩
      (by decide) (statusUpper_completed (some 250)) (amount_match 250)).2 0 (by decide)
  · exact (C4_atomic_transition.2.1 (fixtureDB .pending .pending) "T1" ⟨some "COMPLETED", some 250⟩
      (by decide) (statusUpper_completed (some 250)) (amount_match 250)).1.2.2.2
  · exact (C4_atomic_transition.2.1 (fixtureDB .pending .pending) "T1" ⟨some "COMPLETED", some 250⟩
      (by decide) (statusUpper_completed (some 250)) (amount_match 250)).2 1 (by decide)
  · exact (C4_atomic_transition.2.2 (fixtureDB .pending .pending) (some "C1") "PP" (some 250)
      (by decide) (amount_match 250)).1.2.1
  · exact (C4_atomic_transition.2.2 (fixtureDB .pending .pending) (some "C1") "PP" (some 250)
      (by decide) (amount_match 250)).2 2 (by decide)

/-- C9: the PayPal webhook path sets orderStatus to confirmed unconditionally
(in particular a cancelled order becomes confirmed), while the Pesapal
callback and IPN paths advance orderStatus only from pending, so a cancelled
order stays cancelled there even as it is marked paid. -/
theorem C9_webhook_confirms_unconditionally :
    (∀ (db : DB) (cid : Option String) (pid : String) (amt : Option Rat),
      db.order.paymentStatus ≠ .paid →
      ¬ tolerance < |parsedAmount amt - db.order.total| →
      (handlePaymentCaptureCompleted db cid pid amt none).1.order.orderStatus = .confirmed) ∧
    (∀ (db : DB) (tid : String) (gw : PesapalStatus),
      db.order.paymentStatus ≠ .paid →
      statusUpper gw = "COMPLETED" →
      ¬ tolerance < |parsedAmount gw.amount - db.order.total| →
      (pesapalCallback db tid gw none).1.order.orderStatus =
        (if db.order.orderStatus = .pending then .confirmed else db.order.orderStatus) ∧
      (pesapalIPN db tid gw none).1.order.orderStatus =
        (if db.order.orderStatus = .pending then .confirmed else db.order.orderStatus)) ∧
    (∀ (db : DB) (tid : String) (gw : PesapalStatus) (cid : Option String) (pid : String),
      db.order.paymentStatus ≠ .paid →
      statusUpper gw = "COMPLETED" →
      ¬ tolerance < |parsedAmount gw.amount - db.order.total| →
      db.order.orderStatus = .cancelled →
      (handlePaymentCaptureCompleted db cid pid gw.amount none).1.order.orderStatus = .confirmed ∧
      (pesapalCallback db tid gw none).1.order.orderStatus = .cancelled ∧
      (pesapalCallback db tid gw none).1.order.paymentStatus = .paid ∧
      (pesapalIPN db tid gw none).1.order.orderStatus = .cancelled ∧
      (pesapalIPN db tid gw none).1.order.paymentStatus = .paid) := by
  refine ⟨?_, ?_, ?_⟩
  · intro db cid pid amt hnp hamt
    rw [webhook_commit db cid pid amt hnp hamt]
    rfl
  · intro db tid gw hnp hcomp hamt
    exact ⟨by rw [pesapalCallback_commit db tid gw hnp hcomp hamt]; rfl,
      by rw [pesapalIPN_commit db tid gw hnp hcomp hamt]; rfl⟩
  · intro db tid gw cid pid hnp hcomp hamt hcanc
    refine ⟨by rw [webhook_commit db cid pid gw.amount hnp hamt]; rfl, ?_, ?_, ?_, ?_⟩
    · rw [pesapalCallback_commit db tid gw hnp hcomp hamt]
      simp [pesapalPaidOrder, hcanc]
    · rw [pesapalCallback_commit db tid gw hnp hcomp hamt]
      rfl
    · rw [pesapalIPN_commit db tid gw hnp hcomp hamt]
      simp [pesapalPaidOrder, hcanc]
    · rw [pesapalIPN_commit db tid gw hnp hcomp hamt]
      rfl

/-- C9 witness: a cancelled, unpaid order confirmed by the webhook but kept
cancelled (while marked paid) by the Pesapal paths, at a concrete input. -/
theorem C9_webhook_confirms_unconditionally_witness :
    (handlePaymentCaptureCompleted (fixtureDB .pending .cancelled) (some "C1") "PP"
        (some 250) none).1.order.orderStatus = .confirmed ∧
    (pesapalCallback (fixtureDB .pending .cancelled) "T1" ⟨some "COMPLETED", some 250⟩ none).1.order.orderStatus
      = .cancelled ∧
    (pesapalCallback (fixtureDB .pending .cancelled) "T1" ⟨some "COMPLETED", some 250⟩ none).1.order.paymentStatus
      = .paid ∧
    (pesapalIPN (fixtureDB .pending .cancelled) "T1" ⟨some "COMPLETED", some 250⟩ none).1.order.orderStatus
      = .cancelled ∧
    (pesapalIPN (fixtureDB .pending .cancelled) "T1" ⟨some "COMPLETED", some 250⟩ none).1.order.paymentStatus
      = .paid :=
  C9_webhook_confirms_unconditionally.2.2 (fixtureDB .pending .cancelled) "T1"
    ⟨some "COMPLETED", some 250⟩ (some "C1") "PP" (by decide)
    (statusUpper_completed (some 250)) (amount_match 250) (by decide)

/-- C10: in the Pesapal callback and IPN paths an absent reported amount
parses as 0, so for any order whose total exceeds the tolerance such a
completed confirmation is rejected: paymentStatus becomes failed (never paid)
and stock and cart are untouched. -/
theorem C10_missing_amount_rejected :
    ∀ (db : DB) (tid : String) (gw : PesapalStatus) (failAt : Option Nat),
      db.order.paymentStatus ≠ .paid →
      statusUpper gw = "COMPLETED" →
      gw.amount = none →
      tolerance < db.order.total →
      parsedAmount gw.amount = 0 ∧
      (pesapalCallback db tid gw failAt).1.order.paymentStatus = .failedP ∧
      (pesapalCallback db tid gw failAt).1.stocks = db.stocks ∧
      (pesapalCallback db tid gw failAt).1.cart = db.cart ∧
      (pesapalIPN db tid gw failAt).1.order.paymentStatus = .failedP ∧
      (pesapalIPN db tid gw failAt).1.stocks = db.stocks ∧
      (pesapalIPN db tid gw failAt).1.cart = db.cart := by
  intro db tid gw failAt hnp hcomp hnone htot
  have hz : parsedAmount gw.amount = 0 := by rw [hnone]; rfl
  have hmis : tolerance < |parsedAmount gw.amount - db.order.total| := by
    rw [hz, zero_sub, abs_neg, abs_of_nonneg (le_of_lt (lt_trans tolerance_pos htot))]
    exact htot
  rw [pesapalCallback_mismatch db tid gw failAt hnp hcomp hmis,
    pesapalIPN_mismatch db tid gw failAt hnp hcomp hmis]
  exact ⟨hz, rfl, rfl, rfl, rfl, rfl, rfl⟩

/-- C10 witness: a completed Pesapal status report with no amount field is
rejected against a 250-total order, at a concrete input. -/
theorem C10_missing_amount_rejected_witness :
    parsedAmount (none : Option Rat) = 0 ∧
    (pesapalCallback (fixtureDB .pending .pending) "T1" ⟨some "COMPLETED", none⟩ none).1.order.paymentStatus
      = .failedP ∧
    (pesapalCallback (fixtureDB .pending .pending) "T1" ⟨some "COMPLETED", none⟩ none).1.stocks
      = (fixtureDB .pending .pending).stocks ∧
    (pesapalCallback (fixtureDB .pending .pending) "T1" ⟨some "COMPLETED", none⟩ none).1.cart
      = (fixtureDB .pending .pending).cart ∧
    (pesapalIPN (fixtureDB .pending .pending) "T1" ⟨some "COMPLETED", none⟩ none).1.order.paymentStatus
      = .failedP ∧
    (pesapalIPN (fixtureDB .pending .pending) "T1" ⟨some "COMPLETED", none⟩ none).1.stocks
      = (fixtureDB .pending .pending).stocks ∧
    (pesapalIPN (fixtureDB .pending .pending) "T1" ⟨some "COMPLETED", none⟩ none).1.cart
      = (fixtureDB .pending .pending).cart :=
  C10_missing_amount_rejected (fixtureDB .pending .pending) "T1" ⟨some "COMPLETED", none⟩
    none (by decide) (statusUpper_completed none) rfl tolerance_lt_250

/-- C6: evaluating cancelOrder at a pending order that was never paid — so
its stock was never decremented, since createOrder touches no stock — shows
the restore loop running anyway: stock of product 1 rises from 5 to 7 even
though nothing was ever decremented for this order. -/
theorem C6_cancel_restores_undecremented_stock :
    (fixtureDB .pending .pending).order.paymentStatus = .pending ∧
    (fixtureDB .pending .pending).stocks = [(1, 5)] ∧
    (cancelOrder (fixtureDB .pending .pending)).2 = .success ∧
    (cancelOrder (fixtureDB .pending .pending)).1.stocks = [(1, 7)] ∧
    (cancelOrder (fixtureDB .pending .pending)).1.order.orderStatus = .cancelled := by
  decide

/-! createOrder fixtures. -/

def validReq : CreateOrderReq :=
  { shippingAddress := some ⟨"Amina", "0712000000", "amina@example.com", "Moi Avenue", "Nairobi"⟩,
    deliveryMethod := "home", paymentMethod := "pesapal" }

/-- A cart whose only item references a deleted product. -/
def deadItemCart : List PopCartItem := [{ productId := none, quantity := 2, price := 100 }]

def prodPanel : Product := { id := 1, name := "Panel", price := 90, stock := 5, active := true }

def goodCart : List PopCartItem := [{ productId := some prodPanel, quantity := 2, price := 80 }]

def createdOrder : Order :=
  { userId := 7,
    items := [{ productId := 1, name := "Panel", quantity := 2, price := 90, total := 180 }],
    subtotal := 180, shipping := 50, tax := 0, total := 230,
    paymentStatus := .pending, orderStatus := .pending, paymentId := none }

/-- C7 counterexample: a valid request over a cart whose items all reference
deleted products fails with code CART_CORRUPTED — not EMPTY_CART — while the
cart is sanitized to empty. -/
theorem C7_counterexample :
    createOrder validReq (some deadItemCart) 7 = (some [], .err "CART_CORRUPTED") ∧
    ("CART_CORRUPTED" : String) ≠ "EMPTY_CART" := by
  decide

/-- C7 (amended): when defensive filtering empties a non-empty cart, order
creation fails with code CART_CORRUPTED (EMPTY_CART is only returned for a
cart that was already empty before filtering), and as a side effect the cart
is sanitized: the stored cart items become empty. -/
theorem C7_corrupted_cart_sanitized (req : CreateOrderReq) (sa : ShippingAddress)
    (items : List PopCartItem) (uid : Nat)
    (hsa : req.shippingAddress = some sa)
    (hblank : (isBlank sa.name || isBlank sa.phone || isBlank sa.email ||
        isBlank sa.street || isBlank sa.city) = false)
    (hpm : req.paymentMethod ∈ validPaymentMethods)
    (hdm : req.deliveryMethod ∈ validDeliveryMethods)
    (hne : items ≠ [])
    (hbad : ∀ it ∈ items, isValidCartItem it = false) :
    createOrder req (some items) uid = (some [], .err "CART_CORRUPTED") := by
  have hpm0 : req.paymentMethod ≠ "" := by
    intro hz
    rw [hz] at hpm
    simp [validPaymentMethods] at hpm
  have hfil : items.filter isValidCartItem = [] := by
    refine List.filter_eq_nil_iff.mpr ?_
    intro a ha
    simp [hbad a ha]
  simp [createOrder, hsa, hblank, hpm0, hpm, hdm, hne, hfil]

/-- C7 witness: the amended behaviour at the concrete corrupted cart. -/
theorem C7_corrupted_cart_sanitized_witness :
    createOrder validReq (some deadItemCart) 7 = (some [], .err "CART_CORRUPTED") :=
  C7_corrupted_cart_sanitized validReq
    ⟨"Amina", "0712000000", "amina@example.com", "Moi Avenue", "Nairobi"⟩
    deadItemCart 7 rfl (by decide) (by decide) (by decide) (by decide) (by decide)

/-- Every order line produced by the item-building loop prices from the
populated product current price and has line total = price * quantity. -/
theorem buildOrderItems_ok :
    ∀ (l : List PopCartItem) (its : List OrderItem) (sub : Rat),
      buildOrderItems l = .ok (its, sub) →
      ∀ it ∈ its, it.total = it.price * (it.quantity : Rat) ∧
        ∃ ci ∈ l, ∃ p, ci.productId = some p ∧
          it.price = p.price ∧ it.quantity = ci.quantity := by
  intro l
  induction l with
  | nil =>
    intro its sub h it hit
    simp only [buildOrderItems, Except.ok.injEq, Prod.mk.injEq] at h
    obtain ⟨h1, -⟩ := h
    rw [← h1] at hit
    simp at hit
  | cons ci rest ih =>
    intro its sub h it hit
    simp only [buildOrderItems] at h
    split at h
    · simp at h
    next p hpid =>
      split at h
      · simp at h
      · split at h
        · simp at h
        · split at h
          · simp at h
          next its2 sub2 hrec =>
            simp only [Except.ok.injEq, Prod.mk.injEq] at h
            obtain ⟨h1, -⟩ := h
            rw [← h1] at hit
            rcases List.mem_cons.mp hit with hhd | htl
            · subst hhd
              exact ⟨rfl, ci, List.mem_cons_self ci rest, p, hpid, rfl, rfl⟩
            · obtain ⟨htot, ci2, hci2, p2, hp2⟩ := ih its2 sub2 hrec it htl
              exact ⟨htot, ci2, List.mem_cons_of_mem ci hci2, p2, hp2⟩

/-- C8: every order createOrder accepts satisfies total = subtotal + shipping
+ tax, tax = 0, shipping = 50 for home delivery and 0 for pickup, every line
total = price * quantity, and every line price is the current price of the
populated product of a cart item (never the cart-cached or a client price). -/
theorem C8_price_authority :
    ∀ (req : CreateOrderReq) (cart : Option (List PopCartItem)) (uid : Nat)
      (c' : Option (List PopCartItem)) (o : Order),
      createOrder req cart uid = (c', .ok o) →
      o.total = o.subtotal + o.shipping + o.tax ∧
      o.tax = 0 ∧
      o.shipping = (if req.deliveryMethod = "pickup" then (0 : Rat) else 50) ∧
      (∀ it ∈ o.items, it.total = it.price * (it.quantity : Rat)) ∧
      (∃ items, cart = some items ∧
        ∀ it ∈ o.items, ∃ ci ∈ items, ∃ p, ci.productId = some p ∧
          it.price = p.price ∧ it.quantity = ci.quantity) := by
  intro req cart uid c' o h
  simp only [createOrder] at h
  split at h
  · simp at h
  next sa hsa =>
    split at h
    · simp at h
    · split at h
      · simp at h
      · split at h
        · simp at h
        · split at h
          · simp at h
          · split at h
            · simp at h
            next _ocart citems =>
              split at h
              · simp at h
              · split at h
                · simp at h
                · split at h
                  · simp at h
                  next orderItems subTot hbuild =>
                    simp only [Prod.mk.injEq, CreateOut.ok.injEq] at h
                    obtain ⟨-, ho⟩ := h
                    subst ho
                    refine ⟨rfl, rfl, rfl, ?_, citems, rfl, ?_⟩
                    · intro it hit
                      exact (buildOrderItems_ok _ _ _ hbuild it hit).1
                    · intro it hit
                      obtain ⟨-, ci, hci, p, hp⟩ := buildOrderItems_ok _ _ _ hbuild it hit
                      exact ⟨ci, List.mem_of_mem_filter hci, p, hp⟩

/-- Concrete evaluation of createOrder on a valid one-item cart: the line is
priced at the product current price 90 (not the cart-cached 80). -/
theorem createOrder_goodCart_eval :
    createOrder validReq (some goodCart) 7 = (some goodCart, .ok createdOrder) := by
  have hb : (isBlank "Amina" || isBlank "0712000000" || isBlank "amina@example.com" ||
      isBlank "Moi Avenue" || isBlank "Nairobi") = false := by decide
  have hpm : ¬ ("pesapal" : String) = "" := by decide
  have hpmm : ("pesapal" : String) ∈ validPaymentMethods := by decide
  have hdm : ("home" : String) ∈ validDeliveryMethods := by decide
  have hvalid : isValidCartItem
      { productId := some { id := 1, name := "Panel", price := 90, stock := 5, active := true },
        quantity := 2, price := 80 } = true := by decide
  have hfil : List.filter isValidCartItem
      [{ productId := some { id := 1, name := "Panel", price := 90, stock := 5, active := true },
         quantity := 2, price := 80 }] =
      [{ productId := some { id := 1, name := "Panel", price := 90, stock := 5, active := true },
         quantity := 2, price := 80 }] := by
    simp [List.filter, hvalid]
  have hbuild : buildOrderItems
      [{ productId := some { id := 1, name := "Panel", price := 90, stock := 5, active := true },
         quantity := 2, price := 80 }] =
      .ok ([{ productId := 1, name := "Panel", quantity := 2, price := 90, total := 180 }],
        (180 : Rat)) := by
    simp only [buildOrderItems]
    norm_num
  simp only [createOrder, validReq, goodCart, prodPanel]
  simp [hb, hpm, hpmm, hdm, hvalid, hfil, hbuild, createdOrder, prodPanel]
  norm_num

/-- C8 witness: the pricing identities at the concrete created order. -/
theorem C8_price_authority_witness :
    createOrder validReq (some goodCart) 7 = (some goodCart, .ok createdOrder) ∧
    createdOrder.total = createdOrder.subtotal + createdOrder.shipping + createdOrder.tax ∧
    createdOrder.tax = 0 ∧
    createdOrder.shipping = (if validReq.deliveryMethod = "pickup" then (0 : Rat) else 50) ∧
    (∀ it ∈ createdOrder.items, it.total = it.price * (it.quantity : Rat)) :=
  ⟨createOrder_goodCart_eval,
    (C8_price_authority validReq (some goodCart) 7 (some goodCart) createdOrder
      createOrder_goodCart_eval).1,
    (C8_price_authority validReq (some goodCart) 7 (some goodCart) createdOrder
      createOrder_goodCart_eval).2.1,
    (C8_price_authority validReq (some goodCart) 7 (some goodCart) createdOrder
      createOrder_goodCart_eval).2.2.1,
    (C8_price_authority validReq (some goodCart) 7 (some goodCart) createdOrder
      createOrder_goodCart_eval).2.2.2.1⟩

end SunMega
